import Mathlib

/-!
Verification development for the traffic-manager localization stage
(LocalizationStage.cpp of the CARLA traffic manager).

The shallow embedding below translates LocalizationStage::Update,
LocalizationStage::RemoveActor and LocalizationStage::AssignLaneChange
into pure Lean functions.  Conventions:

* Machine floats of the C++ code are modelled by exact integer
  arithmetic (`Int`); every comparison in the source is a comparison of
  (squared) distances or dot products, so the control flow is preserved.
* `SimpleWaypointPtr` values are waypoint identifiers (`Nat`); a null
  pointer is `Option.none` where the source can produce one.
* Code paths that are undefined behaviour or throw in C++
  (dereferencing a null pointer, `std::deque::front()` on an empty
  deque, `std::vector::at` out of range, `operator[]` on an empty
  vector) are modelled by returning `Option.none` ("crash") from the
  enclosing operation.  Pushing a null successor into the buffer is
  immediately followed in the source by a dereference of the buffer
  back in the loop condition, so it is likewise modelled as a crash.
* The unbounded `while` loops of the source take an explicit fuel
  parameter; exhausting the fuel also yields `none`, and theorems about
  a completed update are stated under the hypothesis that the update
  returned `some`.
* `rand()` is modelled by an explicit stream of naturals consumed in
  exactly the program points where the source calls `rand()`.
-/

abbrev ActorId := Nat
abbrev WaypointId := Nat

/-- Three-dimensional integer vector, standing in for both
`cg::Location` and `cg::Vector3D` of the source. -/
structure Vec3 where
  x : Int
  y : Int
  z : Int
deriving DecidableEq, Repr

/-- Squared euclidean distance, the model of `cg::Math::DistanceSquared`
and of `SimpleWaypoint::DistanceSquared`. -/
def distanceSquared (a b : Vec3) : Int :=
  (a.x - b.x) ^ 2 + (a.y - b.y) ^ 2 + (a.z - b.z) ^ 2

/-- Dot product, the model of `cg::Math::Dot`. -/
def dotV (a b : Vec3) : Int :=
  a.x * b.x + a.y * b.y + a.z * b.z

/-- Vector difference. -/
def vsub (a b : Vec3) : Vec3 :=
  ⟨a.x - b.x, a.y - b.y, a.z - b.z⟩

/-- The `SQUARE` macro of the source. -/
def SQUARE (x : Int) : Int := x * x

/-- A waypoint of the road graph: the data reachable from a
`SimpleWaypointPtr`.  `nextIds` models `GetNextWaypoint()`, whose
vector entries can be null in the source, hence `Option`. -/
structure Waypoint where
  loc : Vec3
  isJunction : Bool
  roadId : Nat
  laneId : Int
  forward : Vec3
  nextIds : List (Option WaypointId)
  leftId : Option WaypointId
  rightId : Option WaypointId
deriving DecidableEq, Repr

/-- Road-graph access together with the two nearest-waypoint lookups of
the local map (`GetWaypointInVicinity` may fail, `GetWaypoint` is the
guaranteed fallback, cf. spec section 6). -/
structure World where
  g : WaypointId → Waypoint
  vicinity : Vec3 → Option WaypointId
  nearest : Vec3 → WaypointId

/-- Per-actor kinematic snapshot and policy parameters consumed by one
update: location, heading and speed from the simulation state, the
forced-lane-change request, keep-right percentage and auto-lane-change
flag from `Parameters`.  The source computes the speed as the norm of
the velocity vector; the model takes that scalar directly. -/
structure ActorCtx where
  loc : Vec3
  heading : Vec3
  speed : Int
  forceLaneChange : Bool
  laneChangeDirection : Bool
  keepRightPercent : Int
  autoLaneChange : Bool

/- Constants from LocalizationConstants.h, which is not part of the
sources at hand.  The values below are representative fixed positive
constants; none of the verified claims depends on the particular
values, only on the comparisons made with them. -/

def HORIZON_RATE : Int := 2
def MINIMUM_HORIZON_LENGTH : Int := 30
def MAXIMUM_HORIZON_LENGTH : Int := 60
def MAX_START_DISTANCE : Int := 20
def JUNCTION_LOOK_AHEAD : Nat := 5
def SAFE_DISTANCE_AFTER_JUNCTION : Int := 10
def INTER_LANE_CHANGE_DISTANCE : Int := 10
def MINIMUM_LANE_CHANGE_DISTANCE : Int := 10
def MAXIMUM_LANE_OBSTACLE_DISTANCE : Int := 50
def MAXIMUM_LANE_OBSTACLE_CURVATURE : Int := 0

/-- Speed dependent waypoint horizon length,
`MIN(vehicle_speed * HORIZON_RATE + MINIMUM_HORIZON_LENGTH, MAXIMUM_HORIZON_LENGTH)`. -/
def horizonLength (speed : Int) : Int :=
  min (speed * HORIZON_RATE + MINIMUM_HORIZON_LENGTH) MAXIMUM_HORIZON_LENGTH

/-- A waypoint buffer: front of the deque is the list head, back is the
last element.  Entries are non-null; the only place the source would
insert a null pointer is the populate loop, which then dereferences it
immediately and is therefore modelled as a crash. -/
abbrev Buffer := List WaypointId

/-- The track-traffic registry, modelled from the spec (section 4.3):
the set of (actor, grid-cell) memberships, with the grid cell derived
from the waypoint identity.  `TrackTraffic` itself is not among the
sources at hand. -/
abbrev Registry := List (ActorId × WaypointId)

def registryContains (r : Registry) (a : ActorId) (wq : WaypointId) : Bool :=
  r.any (fun p => p.1 == a && p.2 == wq)

/-- Modelled from the spec: a buffer push performs a matching registry
add (spec sections 4.1 step 10 and 4.3); set semantics, so a repeated
membership is not duplicated. -/
def registryAdd (r : Registry) (a : ActorId) (wq : WaypointId) : Registry :=
  if registryContains r a wq then r else r ++ [(a, wq)]

/-- Modelled from the spec: a buffer pop performs a matching registry
remove (spec sections 4.1 step 10 and 4.3). -/
def registryRemove (r : Registry) (a : ActorId) (wq : WaypointId) : Registry :=
  r.filter (fun p => !(p.1 == a && p.2 == wq))

/-- Occupants of a grid cell, the model of
`TrackTraffic::GetPassingVehicles`. -/
def getPassingVehicles (r : Registry) (wq : WaypointId) : List ActorId :=
  (r.filter (fun p => p.2 == wq)).map Prod.fst

/-- Modelled from the spec: actors whose buffers share a grid cell with
the given actor (`TrackTraffic::GetOverlappingVehicles`, spec section
4.3). -/
def getOverlappingVehicles (r : Registry) (a : ActorId) : List ActorId :=
  ((r.filter (fun p => !(p.1 == a) && registryContains r a p.2)).map Prod.fst).dedup

/-- Modelled from the spec: `PushWaypoint` of LocalizationUtils (not
among the sources) appends the waypoint at the buffer back and performs
the matching registry add. -/
def PushWaypoint (a : ActorId) (r : Registry) (buf : Buffer) (wq : WaypointId) :
    Registry × Buffer :=
  (registryAdd r a wq, buf ++ [wq])

/-- Registry effect of popping every element of the buffer from the
front, one registry remove per pop, as in the full-buffer discard loops
of the source (lines 51-55 and 133-137). -/
def popAllFrontReg (a : ActorId) (r : Registry) (buf : Buffer) : Registry :=
  buf.foldl (fun acc wq => registryRemove acc a wq) r

/-- Modelled from the spec: `TrackTraffic::UpdateGridPosition` makes
the registry reflect the actor's final buffer occupancy for the tick
(remove stale cell memberships, add the new ones; spec section 4.1
step 10). -/
def updateGridPosition (r : Registry) (a : ActorId) (buf : Buffer) : Registry :=
  (r.filter (fun p => !(p.1 == a))) ++ buf.dedup.map (fun wq => (a, wq))

/-- The per-actor, per-tick localization output record. -/
structure LocData where
  is_at_junction_entrance : Bool
  junction_end_point : Option WaypointId
  safe_point : Option WaypointId
deriving DecidableEq, Repr

abbrev BufferMap := List (ActorId × Buffer)

def lookupBuf (bm : BufferMap) (a : ActorId) : Option Buffer :=
  (bm.find? (fun p => p.1 == a)).map Prod.snd

def setBuf (bm : BufferMap) (a : ActorId) (buf : Buffer) : BufferMap :=
  (a, buf) :: bm.filter (fun p => !(p.1 == a))

def lookupV (l : List (ActorId × Vec3)) (a : ActorId) : Option Vec3 :=
  (l.find? (fun p => p.1 == a)).map Prod.snd

/-- Update-or-insert on the lane-change memory, following lines 125-132
of the source. -/
def setV (l : List (ActorId × Vec3)) (a : ActorId) (v : Vec3) : List (ActorId × Vec3) :=
  if (lookupV l a).isSome then
    l.map (fun p => if p.1 == a then (p.1, v) else p)
  else (a, v) :: l

/-- The mutable state of the localization stage that persists across
ticks: the waypoint buffers, the track-traffic registry, the
lane-change memory, the junction-tracking set, and the output frame. -/
structure StageState where
  bufferMap : BufferMap
  registry : Registry
  lastLaneChange : List (ActorId × Vec3)
  vehiclesAtJunction : List ActorId
  output : List LocData
deriving DecidableEq, Repr

/-- Buffer of an actor within a stage state (empty when absent). -/
def bufOf (st : StageState) (a : ActorId) : Buffer :=
  (lookupBuf st.bufferMap a).getD []

/-- Squared distance from the back waypoint of a buffer to its front
waypoint. -/
def backToFrontSq (g : WaypointId → Waypoint) (buf : Buffer) : Int :=
  distanceSquared (g (buf.getLastD 0)).loc (g (buf.headD 0)).loc

/-- Modelled from the spec: `DeviationDotProduct` of LocalizationUtils
(not among the sources) is the signed projection of the vector from the
actor's location to the target onto the actor's heading (spec section
4.1 step 3); normalisation does not change the sign that line 64 of the
source tests. -/
def DeviationDotProduct (vloc heading target : Vec3) : Int :=
  dotV heading (vsub target vloc)

/-- Modelled from the spec: `GetTargetWaypoint` of LocalizationUtils
(not among the sources) looks a fixed number of steps ahead into the
buffer, clamped to the last element when the buffer is shorter (spec
section 4.1 step 4).  Only called on a non-empty buffer. -/
def getTargetWaypoint (buf : Buffer) : WaypointId :=
  buf.getD (min JUNCTION_LOOK_AHEAD (buf.length - 1)) 0

/-- Lines 46-56 of the source: clear the buffer (popping every element
from the front, with matching registry removals) when the actor is too
far from the first waypoint of the buffer. -/
def discardStale (w : World) (ctx : ActorCtx) (a : ActorId) (r : Registry) (buf : Buffer) :
    Registry × Buffer :=
  match buf with
  | [] => (r, buf)
  | f :: _ =>
    if distanceSquared (w.g f).loc ctx.loc > SQUARE MAX_START_DISTANCE then
      (popAllFrontReg a r buf, [])
    else (r, buf)

/-- Lines 63-72 of the source: purge passed waypoints from the front
while the deviation dot product is non-positive. -/
def purgePassed (w : World) (ctx : ActorCtx) (a : ActorId) :
    Registry → Buffer → Registry × Buffer
  | r, [] => (r, [])
  | r, f :: rest =>
    if DeviationDotProduct ctx.loc ctx.heading (w.g f).loc ≤ 0 then
      purgePassed w ctx a (registryRemove r a f) rest
    else (r, f :: rest)

/-- Lines 78-83 of the source, on the reversed buffer (head = back):
pop the back while the back-to-front squared distance exceeds the
horizon square. -/
def purgeHorizonRev (w : World) (a : ActorId) (hsq : Int) (front : WaypointId) :
    Registry → List WaypointId → Registry × List WaypointId
  | r, [] => (r, [])
  | r, b :: restRev =>
    if distanceSquared (w.g b).loc (w.g front).loc > hsq then
      purgeHorizonRev w a hsq front (registryRemove r a b) restRev
    else (r, b :: restRev)

/-- Lines 78-83 of the source: purge waypoints from the back of the
buffer while farther than the horizon from the front. -/
def purgeHorizon (w : World) (a : ActorId) (hsq : Int) (r : Registry) (buf : Buffer) :
    Registry × Buffer :=
  match buf with
  | [] => (r, buf)
  | f :: _ =>
    ((purgeHorizonRev w a hsq f r buf.reverse).1,
     (purgeHorizonRev w a hsq f r buf.reverse).2.reverse)

/-- The seed waypoint for an empty buffer: the vicinity lookup with the
guaranteed nearest-waypoint fallback (lines 89-93 of the source). -/
def seedOf (w : World) (l : Vec3) : WaypointId :=
  match w.vicinity l with
  | some c => c
  | none => w.nearest l

/-- Lines 86-95 of the source: initialize the buffer if it is empty. -/
def seedIfEmpty (w : World) (ctx : ActorCtx) (a : ActorId) (r : Registry) (buf : Buffer) :
    Registry × Buffer :=
  if buf.isEmpty then PushWaypoint a r buf (seedOf w ctx.loc) else (r, buf)

/-- Lines 60-84 of the source: passed-waypoint purge, junction-entrance
detection, and the horizon purge that is skipped at a junction
entrance.  `none` is the dereference of the front of a buffer that the
passed-waypoint purge has just emptied (lines 74-75 of the source). -/
def purgeAndDetect (w : World) (ctx : ActorCtx) (a : ActorId) (hsq : Int)
    (r : Registry) (buf : Buffer) : Option (Registry × Buffer × Bool) :=
  match buf with
  | [] => some (r, [], false)
  | f :: rest =>
    match (purgePassed w ctx a r (f :: rest)).2, (purgePassed w ctx a r (f :: rest)).1 with
    | [], _ => none
    | f2 :: rest2, r2 =>
      if !(w.g f2).isJunction && (w.g (getTargetWaypoint (f2 :: rest2))).isJunction then
        some (r2, f2 :: rest2, true)
      else
        some ((purgeHorizon w a hsq r2 (f2 :: rest2)).1,
              (purgeHorizon w a hsq r2 (f2 :: rest2)).2, false)

/-- Lines 38-95 of the source: stale-buffer discard, passed-waypoint
purge, junction-entrance detection, horizon purge and re-seeding. -/
def prePhase (w : World) (ctx : ActorCtx) (a : ActorId) (hsq : Int)
    (r : Registry) (buf : Buffer) : Option (Registry × Buffer × Bool) :=
  match purgeAndDetect w ctx a hsq (discardStale w ctx a r buf).1
      (discardStale w ctx a r buf).2 with
  | none => none
  | some (r3, buf3, isJE) =>
    some ((seedIfEmpty w ctx a r3 buf3).1, (seedIfEmpty w ctx a r3 buf3).2, isJE)

/-- Lines 146-164 of the source: choose the successor for the populate
loop.  Outer `none` is the `std::vector::at` throw on an empty
successor vector; `some none` means the null pointer was selected and
the first-valid fallback found no non-null entry, so the null is pushed
(and dereferenced on the next loop-condition evaluation). -/
def selectNextWp (nexts : List (Option WaypointId)) (randv : Nat) :
    Option (Option WaypointId) :=
  match nexts with
  | [] => none
  | _ :: _ =>
    match nexts.getD (if nexts.length > 1 then randv % nexts.length else 0) none with
    | some wq => some (some wq)
    | none => some ((nexts.filterMap id).head?)

/-- Lines 142-166 of the source: extend the buffer forward while the
back-to-front squared distance is at most the horizon square.  The
random stream is consumed exactly when the successor vector has more
than one entry.  `none` is a crash (empty successor vector, an all-null
successor vector followed by the null dereference, the back of an
empty buffer) or fuel exhaustion. -/
def populate (g : WaypointId → Waypoint) (a : ActorId) (hsq : Int) :
    Nat → List Nat → Registry → Buffer → Option (List Nat × Registry × Buffer)
  | 0, _, _, _ => none
  | Nat.succ n, rands, r, buf =>
    match buf with
    | [] => none
    | f :: rest =>
      if distanceSquared (g ((f :: rest).getLastD 0)).loc (g f).loc ≤ hsq then
        match selectNextWp (g ((f :: rest).getLastD 0)).nextIds (rands.headD 0) with
        | none => none
        | some none => none
        | some (some wq) =>
          populate g a hsq n
            (if (g ((f :: rest).getLastD 0)).nextIds.length > 1 then rands.tail else rands)
            (PushWaypoint a r (f :: rest) wq).1 (PushWaypoint a r (f :: rest) wq).2
      else some (rands, r, f :: rest)

/-- Accumulator of the in-lane obstacle scan of AssignLaneChange
(lines 296-298 of the source): the too-close flag, the minimum squared
distance seen so far (`none` is the initial float infinity), and the
closest qualifying obstacle (0 is the "no obstacle" sentinel of the
source). -/
structure ObstacleAcc where
  tooClose : Bool
  minSq : Option Int
  obstacleId : ActorId
deriving DecidableEq, Repr

/-- Comparison against the running minimum, where `none` plays the role
of the initial `std::numeric_limits<float>::infinity()`. -/
def ltMinSq (x : Int) : Option Int → Bool
  | none => true
  | some m => x < m

/-- Body of the obstacle scan loop, lines 302-341 of the source. -/
def obstacleStep (w : World) (bm : BufferMap) (cw : WaypointId) (vloc : Vec3)
    (acc : ObstacleAcc) (o : ActorId) : ObstacleAcc :=
  match lookupBuf bm o with
  | some (ow :: _) =>
    if !(w.g cw).isJunction && !(w.g ow).isJunction
        && ((w.g ow).roadId == (w.g cw).roadId) && ((w.g ow).laneId == (w.g cw).laneId)
        && decide (dotV (w.g cw).forward (vsub (w.g ow).loc (w.g cw).loc) > 0)
        && decide (dotV (w.g cw).forward (w.g ow).forward > MAXIMUM_LANE_OBSTACLE_CURVATURE) then
      if distanceSquared vloc (w.g ow).loc > SQUARE MINIMUM_LANE_CHANGE_DISTANCE then
        if ltMinSq (distanceSquared vloc (w.g ow).loc) acc.minSq
            && decide (distanceSquared vloc (w.g ow).loc < SQUARE MAXIMUM_LANE_OBSTACLE_DISTANCE) then
          { acc with minSq := some (distanceSquared vloc (w.g ow).loc), obstacleId := o }
        else acc
      else { acc with tooClose := true }
    else acc
  | _ => acc

/-- Lines 299-342 of the source: scan the overlapping vehicles for the
closest same-lane obstacle; the loop condition re-checks the too-close
flag and the force flag before every iteration. -/
def scanObstacles (w : World) (bm : BufferMap) (cw : WaypointId) (vloc : Vec3)
    (force : Bool) : List ActorId → ObstacleAcc → ObstacleAcc
  | [], acc => acc
  | o :: rest, acc =>
    if acc.tooClose || force then acc
    else scanObstacles w bm cw vloc force rest (obstacleStep w bm cw vloc acc o)

/-- One side choice of the non-forced path (lines 357-383 of the
source): the side is taken when the obstacle's neighbour lane on that
side exists and is free of passing vehicles, and the actor's own
neighbour waypoint on the same side exists and is free of passing
vehicles. -/
def sideIfFree (r : Registry) (distantOpt ownOpt : Option WaypointId) : Option WaypointId :=
  match distantOpt, ownOpt with
  | some dw, some sw =>
    if (getPassingVehicles r dw).isEmpty && (getPassingVehicles r sw).isEmpty then some sw
    else none
  | _, _ => none

/-- Lines 344-384 of the source: the non-forced change-over choice near
a tracked obstacle; right side preferred over left.  Outer `none` is
the crash of `buffer_map->at` on a missing entry or `front()` on an
empty buffer. -/
def nonForcedSide (w : World) (bm : BufferMap) (r : Registry) (f : WaypointId)
    (oid : ActorId) : Option (Option WaypointId) :=
  match lookupBuf bm oid with
  | none => none
  | some [] => none
  | some (ow :: _) =>
    some (match sideIfFree r (w.g ow).rightId (w.g f).rightId with
          | some rw => some rw
          | none => sideIfFree r (w.g ow).leftId (w.g f).leftId)

/-- Lines 344-395 of the source: choose the change-over side.  In the
forced path the requested side's neighbour waypoint of the actor's
front waypoint is taken regardless of occupancy. -/
def chooseSide (w : World) (bm : BufferMap) (r : Registry) (f : WaypointId)
    (acc : ObstacleAcc) (force dir : Bool) : Option (Option WaypointId) :=
  if !acc.tooClose && !(acc.obstacleId == 0) && !force then
    nonForcedSide w bm r f acc.obstacleId
  else if force then
    some (if dir then (w.g f).rightId else (w.g f).leftId)
  else some none

/-- The change-over projection distance of line 399 of the source,
`cg::Math::Clamp(1.5f * vehicle_speed, 3.0f, 20.0f)`; the float
`1.5 * speed` is modelled by integer halving of `3 * speed`. -/
def changeOverDistance (speed : Int) : Int :=
  min (max ((3 * speed) / 2) 3) 20

/-- Lines 401-405 of the source: advance the change-over point along
the first successors until the squared distance from the starting
neighbour reaches the threshold or a junction waypoint is reached.
`none` models `operator[]` on an empty successor vector, a null first
successor (dereferenced by the next loop condition), or fuel
exhaustion. -/
def projectChangeOver (g : WaypointId → Waypoint) (start : WaypointId) (tsq : Int) :
    Nat → WaypointId → Option WaypointId
  | 0, _ => none
  | Nat.succ n, cur =>
    if decide (distanceSquared (g cur).loc (g start).loc < tsq) && !(g cur).isJunction then
      match (g cur).nextIds.head? with
      | none => none
      | some none => none
      | some (some nxt) => projectChangeOver g start tsq n nxt
    else some cur

/-- LocalizationStage::AssignLaneChange, lines 271-410 of the source.
The result is `some none` when no viable change-over point exists
(`nullptr` in the source), `some (some cp)` on success, and `none` on a
crash of the source (missing buffer-map entry, empty successor vector
in the projection loop) or fuel exhaustion. -/
def AssignLaneChange (w : World) (bm : BufferMap) (r : Registry) (a : ActorId)
    (loc : Vec3) (speed : Int) (force dir : Bool) (fuel : Nat) : Option (Option WaypointId) :=
  match lookupBuf bm a with
  | none => none
  | some [] => some none
  | some (f :: _) =>
    match chooseSide w bm r f
        (scanObstacles w bm f loc force (getOverlappingVehicles r a)
          { tooClose := false, minSq := none, obstacleId := 0 }) force dir with
    | none => none
    | some none => some none
    | some (some s) =>
      match projectChangeOver w.g s (SQUARE (changeOverDistance speed)) fuel s with
      | none => none
      | some cp => some (some cp)

/-- State-passing rendering of the AssignLaneChange member function:
the source reads `buffer_map` and `track_traffic` through const
references and writes only locals, so the stage state is returned
untouched next to the result. -/
def AssignLaneChangeS (w : World) (st : StageState) (a : ActorId) (loc : Vec3)
    (speed : Int) (force dir : Bool) (fuel : Nat) :
    StageState × Option (Option WaypointId) :=
  (st, AssignLaneChange w st.bufferMap st.registry a loc speed force dir fuel)

/-- Lines 97-140 of the source: the lane-change decision.  Consumes one
random value exactly when the keep-right bias is evaluated (line 105).
On a successful negotiation the lane-change memory is updated, the
whole buffer is popped (with registry removals) and re-seeded with the
change-over point. -/
def laneChangePhase (w : World) (ctx : ActorCtx) (a : ActorId) (bm : BufferMap)
    (rands : List Nat) (lc : List (ActorId × Vec3)) (r : Registry) (buf : Buffer)
    (fuel : Nat) :
    Option (List Nat × List (ActorId × Vec3) × Registry × Buffer) :=
  match buf with
  | [] => none
  | f :: rest =>
    if (ctx.autoLaneChange
          || (ctx.forceLaneChange
              || ((!ctx.forceLaneChange && decide (ctx.keepRightPercent ≥ 0))
                  && decide (ctx.keepRightPercent ≥ Int.ofNat ((rands.headD 0) % 101)))))
        && !(w.g f).isJunction
        && (match lookupV lc a with
            | none => true
            | some l =>
              decide (distanceSquared l ctx.loc >
                SQUARE (max (10 * ctx.speed) INTER_LANE_CHANGE_DISTANCE))) then
      match AssignLaneChange w bm r a ctx.loc ctx.speed
          (ctx.forceLaneChange
            || ((!ctx.forceLaneChange && decide (ctx.keepRightPercent ≥ 0))
                && decide (ctx.keepRightPercent ≥ Int.ofNat ((rands.headD 0) % 101))))
          (if (!ctx.forceLaneChange && decide (ctx.keepRightPercent ≥ 0))
              && decide (ctx.keepRightPercent ≥ Int.ofNat ((rands.headD 0) % 101))
           then true else ctx.laneChangeDirection) fuel with
      | none => none
      | some none =>
        some ((if !ctx.forceLaneChange && decide (ctx.keepRightPercent ≥ 0)
               then rands.tail else rands), lc, r, f :: rest)
      | some (some cop) =>
        some ((if !ctx.forceLaneChange && decide (ctx.keepRightPercent ≥ 0)
               then rands.tail else rands),
              setV lc a ctx.loc,
              (PushWaypoint a (popAllFrontReg a r (f :: rest)) [] cop).1,
              (PushWaypoint a (popAllFrontReg a r (f :: rest)) [] cop).2)
    else
      some ((if !ctx.forceLaneChange && decide (ctx.keepRightPercent ≥ 0)
             then rands.tail else rands), lc, r, f :: rest)

/-- State of the junction scan over the existing buffer, mirroring the
locals of lines 168-199 of the source. -/
structure ScanState where
  entered : Bool
  past : Bool
  safeFound : Bool
  junctionEnd : Option WaypointId
  safePoint : Option WaypointId
  current : Option WaypointId
deriving DecidableEq, Repr

/-- One iteration of the buffer scan, lines 183-200 of the source. -/
def scanStep (g : WaypointId → Waypoint) (sdsq : Int) (s : ScanState) (wq : WaypointId) :
    ScanState :=
  if s.safeFound then s
  else
    match { s with current := some wq } with
    | s1 =>
      match (if !s1.entered && (g wq).isJunction then { s1 with entered := true } else s1) with
      | s2 =>
        match (if s2.entered && !s2.past && !(g wq).isJunction
               then { s2 with past := true, junctionEnd := some wq } else s2) with
        | s3 =>
          if s3.past && (match s3.junctionEnd with
                         | some je => decide (distanceSquared (g je).loc (g wq).loc > sdsq)
                         | none => false) then
            { s3 with safeFound := true, safePoint := some wq }
          else s3

/-- Lines 183-200 of the source: scan the existing buffer points for
the junction end and a safe point past it. -/
def scanBuffer (g : WaypointId → Waypoint) (sdsq : Int) (buf : Buffer) : ScanState :=
  buf.foldl (scanStep g sdsq)
    { entered := false, past := false, safeFound := false,
      junctionEnd := none, safePoint := none, current := none }

/-- Lines 205-214 of the source: extend the buffer with first
successors until a non-junction waypoint (the junction end) is pushed.
`none` models `front()` on an empty successor vector, a null first
successor, or fuel exhaustion — the loop itself has no iteration cap. -/
def extendToJunctionExit (g : WaypointId → Waypoint) (a : ActorId) :
    Nat → Registry → Buffer → WaypointId → Option (Registry × Buffer × WaypointId)
  | 0, _, _, _ => none
  | Nat.succ n, r, buf, cur =>
    match (g cur).nextIds.head? with
    | none => none
    | some none => none
    | some (some nxt) =>
      if !(g nxt).isJunction then
        some ((PushWaypoint a r buf nxt).1, (PushWaypoint a r buf nxt).2, nxt)
      else
        extendToJunctionExit g a n (PushWaypoint a r buf nxt).1 (PushWaypoint a r buf nxt).2 nxt

/-- Lines 216-231 of the source: extend the buffer with first
successors until a safe point is found (far enough past the junction
end, a branch point, or another junction). -/
def findSafePoint (g : WaypointId → Waypoint) (a : ActorId) (je : WaypointId) :
    Nat → Registry → Buffer → WaypointId → Option (Registry × Buffer × WaypointId)
  | 0, _, _, _ => none
  | Nat.succ n, r, buf, cur =>
    if decide (distanceSquared (g je).loc (g cur).loc > SQUARE SAFE_DISTANCE_AFTER_JUNCTION)
        || decide ((g cur).nextIds.length > 1) || (g cur).isJunction then
      some (r, buf, cur)
    else
      match (g cur).nextIds.head? with
      | none => none
      | some none => none
      | some (some nxt) =>
        findSafePoint g a je n (PushWaypoint a r buf nxt).1 (PushWaypoint a r buf nxt).2 nxt

/-- Lines 202-232 of the source: the two extension loops run when the
scan did not already find a safe point; the first is skipped when the
scan already passed the junction end. -/
def junctionLoops (w : World) (a : ActorId) (fuel : Nat) (r : Registry) (buf : Buffer)
    (past : Bool) (jeOpt : Option WaypointId) (cur : WaypointId) :
    Option (Registry × Buffer × WaypointId × WaypointId) :=
  if past then
    match jeOpt with
    | none => none
    | some je =>
      match findSafePoint w.g a je fuel r buf cur with
      | none => none
      | some (r2, buf2, sp) => some (r2, buf2, je, sp)
  else
    match extendToJunctionExit w.g a fuel r buf cur with
    | none => none
    | some (r1, buf1, je) =>
      match findSafePoint w.g a je fuel r1 buf1 je with
      | none => none
      | some (r2, buf2, sp) => some (r2, buf2, je, sp)

/-- Writing the localization output record, `output_array->at(index)`:
out of range throws, hence `none`. -/
def writeOut (index : Nat) (out : List LocData) (d : LocData) : Option (List LocData) :=
  if index < out.length then some (out.set index d) else none

/-- Lines 172-238 of the source, inside the newly-at-junction branch:
scan the buffer, run the extension loops when needed, and write the
output record. -/
def junctionExtend (w : World) (a : ActorId) (index : Nat) (fuel : Nat)
    (vaj : List ActorId) (out : List LocData) (r : Registry) (buf : Buffer) :
    Option (List ActorId × List LocData × Registry × Buffer) :=
  if (scanBuffer w.g (SQUARE SAFE_DISTANCE_AFTER_JUNCTION) buf).safeFound then
    match writeOut index out
        { is_at_junction_entrance := true,
          junction_end_point := (scanBuffer w.g (SQUARE SAFE_DISTANCE_AFTER_JUNCTION) buf).junctionEnd,
          safe_point := (scanBuffer w.g (SQUARE SAFE_DISTANCE_AFTER_JUNCTION) buf).safePoint } with
    | none => none
    | some out2 => some (vaj, out2, r, buf)
  else
    match (scanBuffer w.g (SQUARE SAFE_DISTANCE_AFTER_JUNCTION) buf).current with
    | none => none
    | some cur =>
      match junctionLoops w a fuel r buf
          (scanBuffer w.g (SQUARE SAFE_DISTANCE_AFTER_JUNCTION) buf).past
          (scanBuffer w.g (SQUARE SAFE_DISTANCE_AFTER_JUNCTION) buf).junctionEnd cur with
      | none => none
      | some (r2, buf2, je, sp) =>
        match writeOut index out
            { is_at_junction_entrance := true, junction_end_point := some je,
              safe_point := some sp } with
        | none => none
        | some out2 => some (vaj, out2, r2, buf2)

/-- Lines 168-247 of the source: junction tracking and localization
output.  The output record is written only in the two transition
branches. -/
def junctionPhase (w : World) (a : ActorId) (index : Nat) (isJE : Bool) (fuel : Nat)
    (vaj : List ActorId) (out : List LocData) (r : Registry) (buf : Buffer) :
    Option (List ActorId × List LocData × Registry × Buffer) :=
  if isJE && !(vaj.contains a) then
    junctionExtend w a index fuel (a :: vaj) out r buf
  else if !isJE && vaj.contains a then
    match writeOut index out
        { is_at_junction_entrance := false, junction_end_point := none, safe_point := none } with
    | none => none
    | some out2 => some (vaj.filter (fun x => !(x == a)), out2, r, buf)
  else some (vaj, out, r, buf)

/-- Result of one per-actor update: the new stage state, the remaining
random stream, and the junction-entrance flag computed for this tick
(the local `is_at_junction_entrance` of the source, exposed so that
specifications can refer to it). -/
structure UpdateResult where
  state : StageState
  rands : List Nat
  isAtJunctionEntrance : Bool
deriving DecidableEq, Repr

/-- LocalizationStage::Update, lines 26-251 of the source, for one
actor at one tick: horizon computation, buffer-map entry creation,
stale-buffer discard, passed-waypoint and horizon purges, re-seeding,
lane-change decision, buffer population, junction handling, and the
final grid-position update. -/
def Update (w : World) (ctx : ActorCtx) (a : ActorId) (index : Nat)
    (st : StageState) (rands : List Nat) (fuel : Nat) : Option UpdateResult :=
  match prePhase w ctx a (SQUARE (horizonLength ctx.speed)) st.registry
      ((lookupBuf st.bufferMap a).getD []) with
  | none => none
  | some (r1, buf1, isJE) =>
    match laneChangePhase w ctx a (setBuf st.bufferMap a buf1) rands
        st.lastLaneChange r1 buf1 fuel with
    | none => none
    | some (rands2, lc2, r2, buf2) =>
      match populate w.g a (SQUARE (horizonLength ctx.speed)) fuel rands2 r2 buf2 with
      | none => none
      | some (rands3, r3, buf3) =>
        match junctionPhase w a index isJE fuel st.vehiclesAtJunction st.output r3 buf3 with
        | none => none
        | some (vaj4, out4, r4, buf4) =>
          some { state :=
                   { bufferMap := setBuf st.bufferMap a buf4,
                     registry := updateGridPosition r4 a buf4,
                     lastLaneChange := lc2,
                     vehiclesAtJunction := vaj4,
                     output := out4 },
                 rands := rands3,
                 isAtJunctionEntrance := isJE }

/-- LocalizationStage::RemoveActor, lines 253-263 of the source: erase
the actor's lane-change memory and junction-tracking membership when
present. -/
def RemoveActor (st : StageState) (a : ActorId) : StageState :=
  { st with
    lastLaneChange :=
      if (lookupV st.lastLaneChange a).isSome then
        st.lastLaneChange.filter (fun p => !(p.1 == a))
      else st.lastLaneChange,
    vehiclesAtJunction :=
      if st.vehiclesAtJunction.contains a then
        st.vehiclesAtJunction.filter (fun x => !(x == a))
      else st.vehiclesAtJunction }

theorem lookupBuf_setBuf (bm : BufferMap) (a : ActorId) (buf : Buffer) :
    lookupBuf (setBuf bm a buf) a = some buf := by
  simp [lookupBuf, setBuf, List.find?]

theorem bufOf_setBuf (st : StageState) (bm : BufferMap) (a : ActorId) (buf : Buffer)
    (h : st.bufferMap = setBuf bm a buf) : bufOf st a = buf := by
  simp [bufOf, h, lookupBuf_setBuf]

theorem populate_sound (g : WaypointId → Waypoint) (a : ActorId) (hsq : Int) :
    ∀ (n : Nat) (rands : List Nat) (r : Registry) (buf : Buffer)
      (rands' : List Nat) (r' : Registry) (buf' : Buffer),
      populate g a hsq n rands r buf = some (rands', r', buf') →
      ∃ f rest, buf' = f :: rest ∧
        hsq < distanceSquared (g ((f :: rest).getLastD 0)).loc (g f).loc := by
  intro n
  induction n with
  | zero => intro rands r buf rands' r' buf' h; simp [populate] at h
  | succ n ih =>
    intro rands r buf rands' r' buf' h
    unfold populate at h
    match buf with
    | [] => simp at h
    | f :: rest =>
      simp only at h
      split at h
      · split at h
        · exact absurd h (by simp)
        · exact absurd h (by simp)
        · exact ih _ _ _ _ _ _ h
      · rename_i hgt
        obtain ⟨h1, h2, h3⟩ : rands = rands' ∧ r = r' ∧ f :: rest = buf' := by
          simpa using h
        subst h3
        exact ⟨f, rest, rfl, lt_of_not_le hgt⟩

theorem junctionPhase_not_entrance (w : World) (a : ActorId) (index : Nat) (fuel : Nat)
    (vaj : List ActorId) (out : List LocData) (r : Registry) (buf : Buffer)
    (vaj' : List ActorId) (out' : List LocData) (r' : Registry) (buf' : Buffer)
    (h : junctionPhase w a index false fuel vaj out r buf = some (vaj', out', r', buf')) :
    buf' = buf ∧ r' = r := by
  unfold junctionPhase at h
  simp only [Bool.false_and, Bool.false_eq_true, if_false, Bool.not_false, Bool.true_and] at h
  split at h
  · split at h
    · exact absurd h (by simp)
    · obtain ⟨-, -, h3, h4⟩ : vaj.filter (fun x => !(x == a)) = vaj' ∧ _ = out' ∧ r = r' ∧ buf = buf' := by
        simpa using h
      exact ⟨h4.symm, h3.symm⟩
  · obtain ⟨-, -, h3, h4⟩ : vaj = vaj' ∧ out = out' ∧ r = r' ∧ buf = buf' := by
      simpa using h
    exact ⟨h4.symm, h3.symm⟩

theorem writeOut_some (index : Nat) (out out2 : List LocData) (d : LocData)
    (h : writeOut index out d = some out2) : out2 = out.set index d := by
  unfold writeOut at h
  split at h
  · simpa using h.symm
  · simp at h

theorem junctionExtend_output (w : World) (a : ActorId) (index : Nat) (fuel : Nat)
    (vaj : List ActorId) (out : List LocData) (r : Registry) (buf : Buffer)
    (vaj' : List ActorId) (out' : List LocData) (r' : Registry) (buf' : Buffer)
    (h : junctionExtend w a index fuel vaj out r buf = some (vaj', out', r', buf')) :
    ∃ d, out' = out.set index d := by
  unfold junctionExtend at h
  split at h
  · split at h
    · exact absurd h (by simp)
    · rename_i out2 hw
      obtain ⟨-, h2, -, -⟩ : vaj = vaj' ∧ out2 = out' ∧ _ = r' ∧ _ = buf' := by
        simpa using h
      exact ⟨_, h2 ▸ writeOut_some _ _ _ _ hw⟩
  · split at h
    · exact absurd h (by simp)
    · split at h
      · exact absurd h (by simp)
      · split at h
        · exact absurd h (by simp)
        · rename_i out2 hw
          obtain ⟨-, h2, -, -⟩ : vaj = vaj' ∧ out2 = out' ∧ _ = r' ∧ _ = buf' := by
            simpa using h
          exact ⟨_, h2 ▸ writeOut_some _ _ _ _ hw⟩

theorem junctionPhase_output (w : World) (a : ActorId) (index : Nat) (isJE : Bool)
    (fuel : Nat) (vaj : List ActorId) (out : List LocData) (r : Registry) (buf : Buffer)
    (vaj' : List ActorId) (out' : List LocData) (r' : Registry) (buf' : Buffer)
    (h : junctionPhase w a index isJE fuel vaj out r buf = some (vaj', out', r', buf')) :
    (((isJE && !(vaj.contains a)) || (!isJE && vaj.contains a)) = true →
        ∃ d, out' = out.set index d) ∧
    (((isJE && !(vaj.contains a)) || (!isJE && vaj.contains a)) = false → out' = out) := by
  unfold junctionPhase at h
  split at h
  · rename_i hcond
    constructor
    · intro _
      exact junctionExtend_output w a index fuel _ out r buf vaj' out' r' buf' h
    · intro hf
      rw [hcond] at hf
      simp at hf
  · rename_i hcond1
    split at h
    · rename_i hcond2
      split at h
      · exact absurd h (by simp)
      · rename_i out2 hw
        obtain ⟨-, h2, -, -⟩ : _ = vaj' ∧ out2 = out' ∧ r = r' ∧ buf = buf' := by
          simpa using h
        constructor
        · intro _
          exact ⟨_, h2 ▸ writeOut_some _ _ _ _ hw⟩
        · intro hf
          rw [hcond2] at hf
          simp at hf
    · rename_i hcond2
      obtain ⟨-, h2, -, -⟩ : vaj = vaj' ∧ out = out' ∧ r = r' ∧ buf = buf' := by
        simpa using h
      constructor
      · intro ht
        rcases Bool.or_eq_true_iff.mp ht with hx | hx
        · exact absurd hx hcond1
        · exact absurd hx hcond2
      · intro _
        exact h2.symm

theorem seedIfEmpty_ne_nil (w : World) (ctx : ActorCtx) (a : ActorId)
    (r : Registry) (buf : Buffer) : (seedIfEmpty w ctx a r buf).2 ≠ [] := by
  unfold seedIfEmpty
  split
  · simp [PushWaypoint]
  · rename_i hb
    simpa [List.isEmpty_iff] using hb

theorem prePhase_ne_nil (w : World) (ctx : ActorCtx) (a : ActorId) (hsq : Int)
    (r : Registry) (buf : Buffer) (r1 : Registry) (buf1 : Buffer) (isJE : Bool)
    (h : prePhase w ctx a hsq r buf = some (r1, buf1, isJE)) : buf1 ≠ [] := by
  unfold prePhase at h
  split at h
  · simp at h
  · obtain ⟨-, h2, -⟩ : _ = r1 ∧ _ = buf1 ∧ _ = isJE := by simpa using h
    exact h2 ▸ seedIfEmpty_ne_nil w ctx a _ _

theorem laneChangePhase_ne_nil (w : World) (ctx : ActorCtx) (a : ActorId)
    (bm : BufferMap) (rands : List Nat) (lc : List (ActorId × Vec3)) (r : Registry)
    (buf : Buffer) (fuel : Nat) (rands' : List Nat) (lc' : List (ActorId × Vec3))
    (r' : Registry) (buf' : Buffer)
    (h : laneChangePhase w ctx a bm rands lc r buf fuel = some (rands', lc', r', buf')) :
    buf' ≠ [] := by
  unfold laneChangePhase at h
  match buf with
  | [] => simp at h
  | f :: rest =>
    simp only at h
    split at h
    · split at h
      · simp at h
      · obtain ⟨-, -, -, h4⟩ : _ = rands' ∧ lc = lc' ∧ r = r' ∧ f :: rest = buf' := by
          simpa using h
        simp [← h4]
      · obtain ⟨-, -, -, h4⟩ : _ = rands' ∧ _ = lc' ∧ _ = r' ∧ _ = buf' := by
          simpa [PushWaypoint] using h
        simp [← h4]
    · obtain ⟨-, -, -, h4⟩ : _ = rands' ∧ lc = lc' ∧ r = r' ∧ f :: rest = buf' := by
        simpa using h
      simp [← h4]

theorem extendToJunctionExit_ne_nil (g : WaypointId → Waypoint) (a : ActorId) :
    ∀ (n : Nat) (r : Registry) (buf : Buffer) (cur : WaypointId)
      (r' : Registry) (buf' : Buffer) (je : WaypointId),
      extendToJunctionExit g a n r buf cur = some (r', buf', je) →
      buf ≠ [] → buf' ≠ [] := by
  intro n
  induction n with
  | zero => intro r buf cur r' buf' je h _; simp [extendToJunctionExit] at h
  | succ n ih =>
    intro r buf cur r' buf' je h hne
    unfold extendToJunctionExit at h
    split at h
    · simp at h
    · simp at h
    · split at h
      · obtain ⟨-, h2, -⟩ : _ = r' ∧ _ = buf' ∧ _ = je := by simpa using h
        simp [← h2, PushWaypoint]
      · exact ih _ _ _ _ _ _ h (by simp [PushWaypoint])

theorem findSafePoint_ne_nil (g : WaypointId → Waypoint) (a : ActorId) (je : WaypointId) :
    ∀ (n : Nat) (r : Registry) (buf : Buffer) (cur : WaypointId)
      (r' : Registry) (buf' : Buffer) (sp : WaypointId),
      findSafePoint g a je n r buf cur = some (r', buf', sp) →
      buf ≠ [] → buf' ≠ [] := by
  intro n
  induction n with
  | zero => intro r buf cur r' buf' sp h _; simp [findSafePoint] at h
  | succ n ih =>
    intro r buf cur r' buf' sp h hne
    unfold findSafePoint at h
    split at h
    · obtain ⟨-, h2, -⟩ : r = r' ∧ buf = buf' ∧ cur = sp := by simpa using h
      exact h2 ▸ hne
    · split at h
      · simp at h
      · simp at h
      · exact ih _ _ _ _ _ _ h (by simp [PushWaypoint])

theorem junctionLoops_ne_nil (w : World) (a : ActorId) (fuel : Nat) (r : Registry)
    (buf : Buffer) (past : Bool) (jeOpt : Option WaypointId) (cur : WaypointId)
    (r' : Registry) (buf' : Buffer) (je sp : WaypointId)
    (h : junctionLoops w a fuel r buf past jeOpt cur = some (r', buf', je, sp))
    (hne : buf ≠ []) : buf' ≠ [] := by
  unfold junctionLoops at h
  split at h
  · split at h
    · simp at h
    · split at h
      · simp at h
      · rename_i r2 buf2 sp2 hfind
        obtain ⟨h1, h2, -, -⟩ : r2 = r' ∧ buf2 = buf' ∧ _ = je ∧ _ = sp := by simpa using h
        exact h2 ▸ findSafePoint_ne_nil w.g a _ fuel r buf cur r2 buf2 sp2 hfind hne
  · split at h
    · simp at h
    · rename_i r1 buf1 je1 hext
      split at h
      · simp at h
      · rename_i r2 buf2 sp2 hfind
        obtain ⟨-, h2, -, -⟩ : r2 = r' ∧ buf2 = buf' ∧ _ = je ∧ _ = sp := by simpa using h
        have h1 : buf1 ≠ [] :=
          extendToJunctionExit_ne_nil w.g a fuel r buf cur r1 buf1 je1 hext hne
        exact h2 ▸ findSafePoint_ne_nil w.g a _ fuel r1 buf1 je1 r2 buf2 sp2 hfind h1

theorem junctionPhase_ne_nil (w : World) (a : ActorId) (index : Nat) (isJE : Bool)
    (fuel : Nat) (vaj : List ActorId) (out : List LocData) (r : Registry) (buf : Buffer)
    (vaj' : List ActorId) (out' : List LocData) (r' : Registry) (buf' : Buffer)
    (h : junctionPhase w a index isJE fuel vaj out r buf = some (vaj', out', r', buf'))
    (hne : buf ≠ []) : buf' ≠ [] := by
  unfold junctionPhase at h
  split at h
  · unfold junctionExtend at h
    split at h
    · split at h
      · simp at h
      · obtain ⟨-, -, -, h4⟩ : _ = vaj' ∧ _ = out' ∧ r = r' ∧ buf = buf' := by
          simpa using h
        exact h4 ▸ hne
    · split at h
      · simp at h
      · split at h
        · simp at h
        · rename_i r2 buf2 je sp hloops
          split at h
          · simp at h
          · obtain ⟨-, -, -, h4⟩ : _ = vaj' ∧ _ = out' ∧ r2 = r' ∧ buf2 = buf' := by
              simpa using h
            exact h4 ▸ junctionLoops_ne_nil w a fuel r buf _ _ _ r2 buf2 je sp hloops hne
  · split at h
    · split at h
      · simp at h
      · obtain ⟨-, -, -, h4⟩ : _ = vaj' ∧ _ = out' ∧ r = r' ∧ buf = buf' := by
          simpa using h
        exact h4 ▸ hne
    · obtain ⟨-, -, -, h4⟩ : vaj = vaj' ∧ out = out' ∧ r = r' ∧ buf = buf' := by
        simpa using h
      exact h4 ▸ hne

theorem scanObstacles_force (w : World) (bm : BufferMap) (cw : WaypointId) (vloc : Vec3) :
    ∀ (l : List ActorId) (acc : ObstacleAcc), scanObstacles w bm cw vloc true l acc = acc := by
  intro l
  induction l with
  | nil => intro acc; rfl
  | cons o rest ih => intro acc; simp [scanObstacles]

theorem projectChangeOver_post (g : WaypointId → Waypoint) (start : WaypointId) (tsq : Int) :
    ∀ (n : Nat) (cur cp : WaypointId),
      projectChangeOver g start tsq n cur = some cp →
      tsq ≤ distanceSquared (g cp).loc (g start).loc ∨ (g cp).isJunction = true := by
  intro n
  induction n with
  | zero => intro cur cp h; simp [projectChangeOver] at h
  | succ n ih =>
    intro cur cp h
    unfold projectChangeOver at h
    split at h
    · split at h
      · simp at h
      · simp at h
      · exact ih _ _ h
    · rename_i hcond
      obtain rfl : cur = cp := by simpa using h
      by_cases hj : (g cur).isJunction = true
      · exact Or.inr hj
      · left
        by_contra hlt
        apply hcond
        rw [decide_eq_true (lt_of_not_le hlt), Bool.eq_false_iff.mpr hj]
        rfl

theorem sideIfFree_eq_some (r : Registry) (distantOpt ownOpt : Option WaypointId)
    (s : WaypointId) (h : sideIfFree r distantOpt ownOpt = some s) : ownOpt = some s := by
  unfold sideIfFree at h
  split at h
  · split at h
    · exact h
    · simp at h
  · simp at h

theorem chooseSide_mem (w : World) (bm : BufferMap) (r : Registry) (f : WaypointId)
    (acc : ObstacleAcc) (force dir : Bool) (s : WaypointId)
    (h : chooseSide w bm r f acc force dir = some (some s)) :
    (w.g f).rightId = some s ∨ (w.g f).leftId = some s := by
  unfold chooseSide at h
  split at h
  · unfold nonForcedSide at h
    split at h
    · simp at h
    · simp at h
    · rename_i ow rest0 hlook
      obtain hmatch :
          (match sideIfFree r (w.g ow).rightId (w.g f).rightId with
           | some rw => some rw
           | none => sideIfFree r (w.g ow).leftId (w.g f).leftId) = some s := by
        simpa using h
      split at hmatch
      · rename_i rw hr
        exact Or.inl (sideIfFree_eq_some r _ _ s (hmatch ▸ hr))
      · exact Or.inr (sideIfFree_eq_some r _ _ s hmatch)
  · split at h
    · obtain hx : (if dir then (w.g f).rightId else (w.g f).leftId) = some s := by
        simpa using h
      cases dir with
      | true => exact Or.inl (by simpa using hx)
      | false => exact Or.inr (by simpa using hx)
    · simp at h

theorem find?_key_filter_none (l : List (ActorId × Vec3)) (a : ActorId) :
    (l.filter (fun p => !(p.1 == a))).find? (fun p => p.1 == a) = none := by
  induction l with
  | nil => rfl
  | cons p rest ih =>
    by_cases hp : p.1 = a
    · simp [List.filter_cons, hp, ih]
    · simp [List.filter_cons, List.find?_cons, hp, ih]

theorem lookupV_filter_none (l : List (ActorId × Vec3)) (a : ActorId) :
    lookupV (l.filter (fun p => !(p.1 == a))) a = none := by
  simp [lookupV, find?_key_filter_none]

theorem contains_filter_self (l : List ActorId) (a : ActorId) :
    (l.filter (fun x => !(x == a))).contains a = false := by
  induction l with
  | nil => rfl
  | cons x rest ih =>
    by_cases hx : x = a
    · simp [List.filter_cons, hx, ih]
    · simp [List.filter_cons, List.contains_cons, hx, Ne.symm hx, ih]

theorem RemoveActor_absent (st : StageState) (a : ActorId)
    (h1 : lookupV st.lastLaneChange a = none)
    (h2 : st.vehiclesAtJunction.contains a = false) : RemoveActor st a = st := by
  unfold RemoveActor
  rw [h1, h2, if_neg (by simp), if_neg (by simp)]

/-- C5: for every actor id, calling RemoveActor twice in succession
produces the same stage state as calling it once (the lane-change
memory and the junction-tracking set are the only structures it
touches), and the call is a no-op when the actor has an entry in
neither structure. -/
theorem RemoveActor_idem (st : StageState) (a : ActorId) :
    RemoveActor (RemoveActor st a) a = RemoveActor st a ∧
    (lookupV st.lastLaneChange a = none ∧ st.vehiclesAtJunction.contains a = false →
      RemoveActor st a = st) := by
  have hlc : lookupV (RemoveActor st a).lastLaneChange a = none := by
    unfold RemoveActor
    cases h : (lookupV st.lastLaneChange a).isSome with
    | true =>
      rw [if_pos rfl]
      exact lookupV_filter_none _ _
    | false =>
      rw [if_neg (fun hc => Bool.false_ne_true hc)]
      exact Option.not_isSome_iff_eq_none.mp (by simp [h])
  have hvj : (RemoveActor st a).vehiclesAtJunction.contains a = false := by
    unfold RemoveActor
    cases h : st.vehiclesAtJunction.contains a with
    | true =>
      rw [if_pos rfl]
      exact contains_filter_self _ _
    | false =>
      rw [if_neg (fun hc => Bool.false_ne_true hc)]
      exact h
  exact ⟨RemoveActor_absent _ _ hlc hvj, fun hp => RemoveActor_absent st a hp.1 hp.2⟩

def stW5 : StageState :=
  { bufferMap := [(3, [0, 1])], registry := [(3, 0), (3, 1)],
    lastLaneChange := [(3, ⟨1, 2, 3⟩)], vehiclesAtJunction := [3], output := [] }

/-- Witness for C5 at a concrete state: actor 7 is absent from both
structures, so removal twice equals removal once and is a no-op. -/
theorem RemoveActor_idem_witness :
    RemoveActor (RemoveActor stW5 7) 7 = RemoveActor stW5 7 ∧ RemoveActor stW5 7 = stW5 :=
  ⟨(RemoveActor_idem stW5 7).1, (RemoveActor_idem stW5 7).2 ⟨by decide, by decide⟩⟩

/-- C9: AssignLaneChange is read-only with respect to the waypoint
buffers and the track-traffic registry: the stage state returned by
the state-passing rendering equals the input state, for every
invocation, forced or not; the only effect is the returned change-over
waypoint. -/
theorem AssignLaneChange_frame (w : World) (st : StageState) (a : ActorId) (loc : Vec3)
    (speed : Int) (force dir : Bool) (fuel : Nat) :
    (AssignLaneChangeS w st a loc speed force dir fuel).1.bufferMap = st.bufferMap ∧
    (AssignLaneChangeS w st a loc speed force dir fuel).1.registry = st.registry ∧
    (AssignLaneChangeS w st a loc speed force dir fuel).1 = st :=
  ⟨rfl, rfl, rfl⟩

def wpStraightA : Waypoint :=
  { loc := ⟨0, 0, 0⟩, isJunction := false, roadId := 0, laneId := 0, forward := ⟨1, 0, 0⟩,
    nextIds := [some 1], leftId := none, rightId := none }

def wpStraightB : Waypoint :=
  { loc := ⟨31, 0, 0⟩, isJunction := false, roadId := 0, laneId := 0, forward := ⟨1, 0, 0⟩,
    nextIds := [some 1], leftId := none, rightId := none }

/-- A two-waypoint straight road whose second waypoint lies just past
the minimum horizon (31 > 30) from the first. -/
def cexW : World :=
  { g := fun wq => if wq == 0 then wpStraightA else wpStraightB,
    vicinity := fun _ => some 0, nearest := fun _ => 0 }

/-- A stationary actor at the origin with no lane-change policy. -/
def cexCtx : ActorCtx :=
  { loc := ⟨0, 0, 0⟩, heading := ⟨1, 0, 0⟩, speed := 0, forceLaneChange := false,
    laneChangeDirection := false, keepRightPercent := -1, autoLaneChange := false }

/-- A stage state whose output record still holds junction data from a
previous tick. -/
def cexSt : StageState :=
  { bufferMap := [], registry := [], lastLaneChange := [], vehiclesAtJunction := [],
    output := [{ is_at_junction_entrance := true, junction_end_point := some 7,
                 safe_point := some 8 }] }

/-- C1 counterexample: on the straight road, the update for actor 1
completes with junction-entrance false and buffer [0, 1], whose
back-to-front squared distance is 961 > 900 = horizon²; so the claimed
disjunction (distance at most horizon², or at a junction entrance)
fails on this concrete input. -/
theorem C1_counterexample :
    (Update cexW cexCtx 1 0 cexSt [] 20).map
        (fun res => (res.isAtJunctionEntrance, bufOf res.state 1)) = some (false, [0, 1]) ∧
    ¬(backToFrontSq cexW.g [0, 1] ≤ SQUARE (horizonLength cexCtx.speed)
        ∨ false = true) := by
  constructor
  · decide
  · decide

/-- C1 (amended): after a completed LocalizationStage::Update, either
the actor is at a junction entrance, or the squared distance from the
buffer back to the buffer front strictly exceeds the current horizon
squared — the populate loop extends the buffer until the distance
first passes the horizon, so the original "at most horizon²" bound
never holds at completion. -/
theorem Update_horizon_exceeded (w : World) (ctx : ActorCtx) (a : ActorId) (index : Nat)
    (st : StageState) (rands : List Nat) (fuel : Nat) (res : UpdateResult)
    (h : Update w ctx a index st rands fuel = some res) :
    res.isAtJunctionEntrance = true ∨
      SQUARE (horizonLength ctx.speed) < backToFrontSq w.g (bufOf res.state a) := by
  unfold Update at h
  split at h
  · simp at h
  · rename_i r1 buf1 isJE hpre
    split at h
    · simp at h
    · rename_i rands2 lc2 r2 buf2 hlane
      split at h
      · simp at h
      · rename_i rands3 r3 buf3 hpop
        split at h
        · simp at h
        · rename_i vaj4 out4 r4 buf4 hjunc
          have hres := (Option.some.inj h).symm
          cases isJE with
          | true => exact Or.inl (by rw [hres])
          | false =>
            right
            obtain ⟨hb4, -⟩ :=
              junctionPhase_not_entrance w a index fuel _ _ _ _ _ _ _ _ hjunc
            obtain ⟨f, rest, hb3, hlt⟩ :=
              populate_sound w.g a _ fuel rands2 r2 buf2 rands3 r3 buf3 hpop
            have hbuf : bufOf res.state a = buf4 := by
              rw [hres]
              exact bufOf_setBuf _ _ a _ rfl
            rw [hbuf, hb4, hb3]
            simpa [backToFrontSq] using hlt

/-- Witness for the amended C1 at the concrete straight-road input. -/
theorem Update_horizon_exceeded_witness :
    ∃ res, Update cexW cexCtx 1 0 cexSt [] 20 = some res ∧
      (res.isAtJunctionEntrance = true ∨
        SQUARE (horizonLength cexCtx.speed) < backToFrontSq cexW.g (bufOf res.state 1)) := by
  have hs : (Update cexW cexCtx 1 0 cexSt [] 20).isSome = true := by decide
  exact ⟨(Update cexW cexCtx 1 0 cexSt [] 20).get hs, (Option.some_get hs).symm,
    Update_horizon_exceeded cexW cexCtx 1 0 cexSt [] 20 _ (Option.some_get hs).symm⟩

/-- C4 counterexample: on the straight road the actor is not at a
junction entrance and is not tracked, yet after a completed update the
output record at its index still holds the junction data written
before the tick — the record is not written anew each tick. -/
theorem C4_counterexample :
    (Update cexW cexCtx 1 0 cexSt [] 20).map
        (fun res => (res.isAtJunctionEntrance, res.state.output)) =
      some (false, [{ is_at_junction_entrance := true, junction_end_point := some 7,
                      safe_point := some 8 }]) ∧
    cexSt.vehiclesAtJunction.contains 1 = false := by
  constructor
  · decide
  · decide

/-- C4 (amended): a completed LocalizationStage::Update rewrites the
actor's output record exactly on junction-state transitions — when the
actor is newly at a junction entrance (not yet tracked) or no longer
at one while still tracked; in every other case the record of the
previous tick is left in place. -/
theorem Update_output_frame (w : World) (ctx : ActorCtx) (a : ActorId) (index : Nat)
    (st : StageState) (rands : List Nat) (fuel : Nat) (res : UpdateResult)
    (h : Update w ctx a index st rands fuel = some res) :
    (((res.isAtJunctionEntrance && !(st.vehiclesAtJunction.contains a))
        || (!res.isAtJunctionEntrance && st.vehiclesAtJunction.contains a)) = true →
      ∃ d, res.state.output = st.output.set index d) ∧
    (((res.isAtJunctionEntrance && !(st.vehiclesAtJunction.contains a))
        || (!res.isAtJunctionEntrance && st.vehiclesAtJunction.contains a)) = false →
      res.state.output = st.output) := by
  unfold Update at h
  split at h
  · simp at h
  · rename_i r1 buf1 isJE hpre
    split at h
    · simp at h
    · rename_i rands2 lc2 r2 buf2 hlane
      split at h
      · simp at h
      · rename_i rands3 r3 buf3 hpop
        split at h
        · simp at h
        · rename_i vaj4 out4 r4 buf4 hjunc
          have hres := (Option.some.inj h).symm
          have hout : res.state.output = out4 := by rw [hres]
          have hje : res.isAtJunctionEntrance = isJE := by rw [hres]
          rw [hout, hje]
          exact junctionPhase_output w a index isJE fuel _ st.output r3 buf3 _ _ _ _ hjunc

/-- Witness for the amended C4 at the concrete straight-road input. -/
theorem Update_output_frame_witness :
    ∃ res, Update cexW cexCtx 1 0 cexSt [] 20 = some res ∧
      ((((res.isAtJunctionEntrance && !(cexSt.vehiclesAtJunction.contains 1))
          || (!res.isAtJunctionEntrance && cexSt.vehiclesAtJunction.contains 1)) = true →
        ∃ d, res.state.output = cexSt.output.set 0 d) ∧
       (((res.isAtJunctionEntrance && !(cexSt.vehiclesAtJunction.contains 1))
          || (!res.isAtJunctionEntrance && cexSt.vehiclesAtJunction.contains 1)) = false →
        res.state.output = cexSt.output)) := by
  have hs : (Update cexW cexCtx 1 0 cexSt [] 20).isSome = true := by decide
  exact ⟨(Update cexW cexCtx 1 0 cexSt [] 20).get hs, (Option.some_get hs).symm,
    Update_output_frame cexW cexCtx 1 0 cexSt [] 20 _ (Option.some_get hs).symm⟩

/-- C10: after a completed LocalizationStage::Update the actor's
waypoint buffer is non-empty; whenever purging leaves the buffer
empty, it is re-seeded before the extension phase with the vicinity
lookup, falling back to the guaranteed nearest-waypoint lookup. -/
theorem Update_buffer_nonempty (w : World) (ctx : ActorCtx) (a : ActorId) (index : Nat)
    (st : StageState) (rands : List Nat) (fuel : Nat) (res : UpdateResult)
    (h : Update w ctx a index st rands fuel = some res) :
    bufOf res.state a ≠ [] ∧
    ∀ r : Registry, seedIfEmpty w ctx a r [] = PushWaypoint a r [] (seedOf w ctx.loc) := by
  refine ⟨?_, fun r => rfl⟩
  unfold Update at h
  split at h
  · simp at h
  · rename_i r1 buf1 isJE hpre
    split at h
    · simp at h
    · rename_i rands2 lc2 r2 buf2 hlane
      split at h
      · simp at h
      · rename_i rands3 r3 buf3 hpop
        split at h
        · simp at h
        · rename_i vaj4 out4 r4 buf4 hjunc
          have hres := (Option.some.inj h).symm
          have hbuf : bufOf res.state a = buf4 := by
            rw [hres]
            exact bufOf_setBuf _ _ a _ rfl
          rw [hbuf]
          obtain ⟨f, rest, hb3, -⟩ :=
            populate_sound w.g a _ fuel rands2 r2 buf2 rands3 r3 buf3 hpop
          exact junctionPhase_ne_nil w a index isJE fuel _ st.output r3 buf3 _ _ _ _
            hjunc (by simp [hb3])

/-- Witness for C10 at the concrete straight-road input. -/
theorem Update_buffer_nonempty_witness :
    ∃ res, Update cexW cexCtx 1 0 cexSt [] 20 = some res ∧
      (bufOf res.state 1 ≠ [] ∧
       ∀ r : Registry, seedIfEmpty cexW cexCtx 1 r [] =
         PushWaypoint 1 r [] (seedOf cexW cexCtx.loc)) := by
  have hs : (Update cexW cexCtx 1 0 cexSt [] 20).isSome = true := by decide
  exact ⟨(Update cexW cexCtx 1 0 cexSt [] 20).get hs, (Option.some_get hs).symm,
    Update_buffer_nonempty cexW cexCtx 1 0 cexSt [] 20 _ (Option.some_get hs).symm⟩

/-- Failing input for C2: a road graph in which every waypoint is a
junction waypoint whose only successor is waypoint 0 — the junction
never ends along the chain of first successors. -/
def junctionCycleW : World :=
  { g := fun _ =>
      { loc := ⟨0, 0, 0⟩, isJunction := true, roadId := 0, laneId := 0,
        forward := ⟨1, 0, 0⟩, nextIds := [some 0], leftId := none, rightId := none },
    vicinity := fun _ => some 0, nearest := fun _ => 0 }

/-- C2: the post-junction extension loop of the source has no iteration
cap: on the all-junction cycle it keeps pushing waypoints and never
reaches a past-junction waypoint, for every fuel bound, so the update
never emits any (degraded or other) output on this input. -/
theorem C2_extension_unbounded :
    ∀ (n : Nat) (r : Registry) (buf : Buffer),
      extendToJunctionExit junctionCycleW.g 1 n r buf 0 = none := by
  intro n
  induction n with
  | zero => intro r buf; rfl
  | succ n ih =>
    intro r buf
    unfold extendToJunctionExit
    simp only [junctionCycleW, List.head?, Bool.not_true, Bool.false_eq_true, if_false]
    exact ih _ _

/-- Failing input for C3: a road whose single waypoint has an empty
successor list (a dead end). -/
def deadEndW : World :=
  { g := fun _ =>
      { loc := ⟨0, 0, 0⟩, isJunction := false, roadId := 0, laneId := 0,
        forward := ⟨1, 0, 0⟩, nextIds := [], leftId := none, rightId := none },
    vicinity := fun _ => some 0, nearest := fun _ => 0 }

/-- C3: when the buffer back has no successors the populate loop
crashes — the source calls next_waypoints.at(0) on an empty vector —
instead of leaving the buffer un-extended; and when every successor
entry is null, the selection yields the null pointer, which the source
pushes into the buffer and dereferences at the next loop condition
instead of skipping the extension. -/
theorem C3_populate_crash :
    (∀ n : Nat, populate deadEndW.g 1 900 n [] [] [0] = none) ∧
    selectNextWp [none, none] 0 = some none := by
  constructor
  · intro n
    cases n with
    | zero => rfl
    | succ n => rfl
  · rfl

/-- C7: when the buffer is non-empty and the actor's location is
farther than the fixed start distance from the front waypoint, the
pre-phase of Update discards the entire buffer — popping every element
with a matching registry removal — and re-seeds the path with the
nearest graph waypoint to the actor (vicinity lookup with guaranteed
fallback), reporting no junction entrance. -/
theorem prePhase_stale_discard (w : World) (ctx : ActorCtx) (a : ActorId) (hsq : Int)
    (r : Registry) (f : WaypointId) (rest : List WaypointId)
    (hfar : distanceSquared (w.g f).loc ctx.loc > SQUARE MAX_START_DISTANCE) :
    prePhase w ctx a hsq r (f :: rest) =
      some (registryAdd (popAllFrontReg a r (f :: rest)) a (seedOf w ctx.loc),
            [seedOf w ctx.loc], false) := by
  unfold prePhase discardStale
  dsimp only
  rw [if_pos hfar]
  rfl

/-- An actor context standing a kilometre away from the buffer front,
for the stale-buffer witness. -/
def farCtx : ActorCtx :=
  { loc := ⟨1000, 0, 0⟩, heading := ⟨1, 0, 0⟩, speed := 0, forceLaneChange := false,
    laneChangeDirection := false, keepRightPercent := -1, autoLaneChange := false }

/-- Witness for C7 at a concrete stale buffer. -/
theorem prePhase_stale_discard_witness :
    prePhase cexW farCtx 1 900 [(1, 0), (1, 1)] [0, 1] =
      some (registryAdd (popAllFrontReg 1 [(1, 0), (1, 1)] [0, 1]) 1 (seedOf cexW farCtx.loc),
            [seedOf cexW farCtx.loc], false) :=
  prePhase_stale_discard cexW farCtx 1 900 [(1, 0), (1, 1)] 0 [1] (by decide)

/-- C6: for an actor with a non-empty buffer, a forced lane change
towards a side whose neighbour waypoint is missing makes
AssignLaneChange return no change-over point (right and left cases),
the forced path is insensitive to the registry (occupancy is ignored),
and the lane-change phase of Update leaves the buffer, registry and
lane-change memory unchanged in that situation. -/
theorem AssignLaneChange_forced_missing (w : World) (bm : BufferMap) (r : Registry)
    (a : ActorId) (loc : Vec3) (speed : Int) (fuel : Nat) (f : WaypointId)
    (rest : List WaypointId) (hbm : lookupBuf bm a = some (f :: rest)) :
    ((w.g f).rightId = none →
       AssignLaneChange w bm r a loc speed true true fuel = some none) ∧
    ((w.g f).leftId = none →
       AssignLaneChange w bm r a loc speed true false fuel = some none) ∧
    (∀ (r2 : Registry) (dir : Bool),
       AssignLaneChange w bm r a loc speed true dir fuel =
       AssignLaneChange w bm r2 a loc speed true dir fuel) ∧
    (∀ (ctx : ActorCtx) (rands : List Nat) (lc : List (ActorId × Vec3)),
       ctx.forceLaneChange = true → ctx.laneChangeDirection = true →
       (w.g f).rightId = none →
       laneChangePhase w ctx a bm rands lc r (f :: rest) fuel =
         some (rands, lc, r, f :: rest)) := by
  have hright : ∀ (loc2 : Vec3) (speed2 : Int) (r2 : Registry), (w.g f).rightId = none →
      AssignLaneChange w bm r2 a loc2 speed2 true true fuel = some none := by
    intro loc2 speed2 r2 hr
    simp only [AssignLaneChange, hbm]
    rw [scanObstacles_force]
    simp [chooseSide, hr]
  refine ⟨hright loc speed r, ?_, ?_, ?_⟩
  · intro hl
    simp only [AssignLaneChange, hbm]
    rw [scanObstacles_force]
    simp [chooseSide, hl]
  · intro r2 dir
    simp only [AssignLaneChange, hbm]
    rw [scanObstacles_force, scanObstacles_force]
    rfl
  · intro ctx rands lc hforce hdir hr
    have hnone := hright ctx.loc ctx.speed r hr
    simp [laneChangePhase, hforce, hdir, hnone]

/-- A forced lane-change context (direction = right). -/
def forcedCtx : ActorCtx :=
  { loc := ⟨0, 0, 0⟩, heading := ⟨1, 0, 0⟩, speed := 0, forceLaneChange := true,
    laneChangeDirection := true, keepRightPercent := -1, autoLaneChange := false }

/-- Witness for C6: on the straight road (no right neighbour), the
forced right change returns none and the lane-change phase leaves the
buffer, registry and memory unchanged. -/
theorem AssignLaneChange_forced_missing_witness :
    AssignLaneChange cexW [(1, [0, 1])] [] 1 ⟨0, 0, 0⟩ 0 true true 5 = some none ∧
    laneChangePhase cexW forcedCtx 1 [(1, [0, 1])] [] [] [] [0, 1] 5 =
      some ([], [], [], [0, 1]) :=
  ⟨(AssignLaneChange_forced_missing cexW [(1, [0, 1])] [] 1 ⟨0, 0, 0⟩ 0 5 0 [1]
      (by decide)).1 (by decide),
   (AssignLaneChange_forced_missing cexW [(1, [0, 1])] [] 1 ⟨0, 0, 0⟩ 0 5 0 [1]
      (by decide)).2.2.2 forcedCtx [] [] (by decide) (by decide) (by decide)⟩

/-- C8: whenever AssignLaneChange returns a change-over point, that
point was obtained by advancing from the chosen neighbour of the
buffer front (its right or left lane neighbour) along successors, and
it satisfies the stopping condition of the projection loop: its
squared distance from the starting neighbour has reached the square of
the speed-scaled distance clamped to the fixed range, or it is a
junction waypoint at which the advance stopped early. -/
theorem AssignLaneChange_projection (w : World) (bm : BufferMap) (r : Registry)
    (a : ActorId) (loc : Vec3) (speed : Int) (force dir : Bool) (fuel : Nat)
    (cp : WaypointId)
    (h : AssignLaneChange w bm r a loc speed force dir fuel = some (some cp)) :
    ∃ f rest s, lookupBuf bm a = some (f :: rest) ∧
      ((w.g f).rightId = some s ∨ (w.g f).leftId = some s) ∧
      (SQUARE (changeOverDistance speed) ≤ distanceSquared (w.g cp).loc (w.g s).loc ∨
        (w.g cp).isJunction = true) := by
  unfold AssignLaneChange at h
  split at h
  · simp at h
  · simp at h
  · rename_i f rest hbm
    split at h
    · simp at h
    · simp at h
    · rename_i s hside
      split at h
      · simp at h
      · rename_i cp2 hproj
        obtain rfl : cp2 = cp := by simpa using h
        exact ⟨f, rest, s, hbm,
          chooseSide_mem w bm r f _ force dir s hside,
          projectChangeOver_post w.g s _ fuel s _ hproj⟩

def wpLaneFront : Waypoint :=
  { loc := ⟨0, 0, 0⟩, isJunction := false, roadId := 0, laneId := 0, forward := ⟨1, 0, 0⟩,
    nextIds := [some 1], leftId := none, rightId := some 1 }

def wpLaneStart : Waypoint :=
  { loc := ⟨0, 5, 0⟩, isJunction := false, roadId := 0, laneId := 1, forward := ⟨1, 0, 0⟩,
    nextIds := [some 2], leftId := none, rightId := none }

def wpLaneTarget : Waypoint :=
  { loc := ⟨4, 5, 0⟩, isJunction := false, roadId := 0, laneId := 1, forward := ⟨1, 0, 0⟩,
    nextIds := [some 2], leftId := none, rightId := none }

/-- A small world with a right-lane neighbour and a successor past the
change-over distance, for the projection witness. -/
def laneW : World :=
  { g := fun wq => if wq == 0 then wpLaneFront else if wq == 1 then wpLaneStart else wpLaneTarget,
    vicinity := fun _ => some 0, nearest := fun _ => 0 }

/-- Witness for C8: a concrete forced right change succeeds, its
change-over point is reached from the right neighbour, and the
stopping condition holds there. -/
theorem AssignLaneChange_projection_witness :
    ∃ f rest s, lookupBuf [(1, [0])] 1 = some (f :: rest) ∧
      ((laneW.g f).rightId = some s ∨ (laneW.g f).leftId = some s) ∧
      (SQUARE (changeOverDistance 0) ≤ distanceSquared (laneW.g 2).loc (laneW.g s).loc ∨
        (laneW.g 2).isJunction = true) :=
  AssignLaneChange_projection laneW [(1, [0])] [] 1 ⟨0, 0, 0⟩ 0 true true 5 2 (by decide)
